import Mathlib

/-!
Verification development for the Trading-bot repository.

Shallow embedding of the core backtesting triad:
  * `src/backtest/engine.py`   — `BacktestEngine.run` and its helpers,
  * `src/indicators/*.py`      — ATR / Donchian / EMA at the most recent bar,
  * `src/strategies/turtle_like.py` — `TurtleParams.validate`,
    `TurtleLikeStrategy.on_bar` and its `_maybe_enter` / `_maybe_pyramid` /
    `_maybe_exit` parts,
  * `src/optimize/gridsearch.py` — `product_dict` and `run_grid`.

Modelling conventions, stated once:
  * Python floats are modelled as exact rationals (`ℚ`); the float literal
    `1e-12` is modelled as `1/10^12`.
  * A pandas `NaN` ("value undefined") is modelled as `Option.none`.
  * Bar timestamps are integers.  The `open` column is the field
    `open_price` (`open` is a Lean keyword); `volume` is omitted — no code
    path used by the claims reads it.
  * Integer-valued strategy parameters are `ℕ`; the validation code only
    checks lower bounds on them.
  * Strategy order payloads are Python dicts; the engine reads exactly the
    keys `action`, `side`, `qty`, `reason` (with defaults), so the `OrderDict`
    structure carries exactly those.  Keys the engine never reads
    (`price`, `time`, `stop_price`, `position`) are omitted.
  * `EngState.entry_fills` is a ghost counter incremented exactly where
    `engine.py` runs `capital -= COMMISSION_FIXED`; it changes no behaviour
    and exists so that the cash-accounting theorem can be stated.
-/

/-- Position / trade side, `"FLAT" | "LONG" | "SHORT"` in `engine.py` and
`turtle_like.py`. -/
inductive Side where
  | FLAT
  | LONG
  | SHORT
deriving DecidableEq

/-- Action of an order, the `"action"` key of the strategy's order dict. -/
inductive OrderAction where
  | ENTER
  | EXIT
deriving DecidableEq

/-- Execution timing, `EngineConfig.EXECUTION_TIMING ∈ {"close","next_open"}`. -/
inductive ExecutionTiming where
  | close
  | next_open
deriving DecidableEq

/-- One OHLC bar of the input dataframe (`engine.py::_row_to_bar`). -/
structure Bar where
  time : Int
  open_price : ℚ
  high : ℚ
  low : ℚ
  close : ℚ
deriving DecidableEq, Inhabited

/-- Order dict returned by a strategy, restricted to the keys the engine
reads.  `side = none` models a missing/empty `"side"` key, `qty = none` a
missing `"qty"` key, `reason = none` a missing `"reason"` key. -/
structure OrderDict where
  action : OrderAction
  side : Option Side := none
  qty : Option ℚ := none
  reason : Option String := none
deriving DecidableEq

/-- `engine.py::EngineConfig` (defaults as in the source). -/
structure EngineConfig where
  EXECUTION_TIMING : ExecutionTiming := .next_open
  SLIPPAGE_ABS : ℚ := 1/2
  COMMISSION_FIXED : ℚ := 0
  INITIAL_CAPITAL : ℚ := 1000
  DEFAULT_QTY : ℚ := 1
  POINT_VALUE : ℚ := 1
  ALLOW_SHORT : Bool := true
deriving DecidableEq

/-- `engine.py::PositionState` (defaults as in the source). -/
structure PositionState where
  side : Side := .FLAT
  entry_price : Option ℚ := none
  qty : ℚ := 0
  entry_time : Option Int := none
deriving DecidableEq

/-- `engine.py::Trade`, one completed round trip. -/
structure Trade where
  symbol : String
  side : Side
  qty : ℚ
  entry_time : Int
  entry_price : ℚ
  exit_time : Int
  exit_price : ℚ
  pnl : ℚ
  reason : String
deriving DecidableEq

/-- One element of `engine.py`'s `equity_curve` list
(`{"time": ..., "equity": ...}`). -/
structure EquityPoint where
  time : Int
  equity : ℚ
deriving DecidableEq

/-- Runtime state of `BacktestEngine` during `run`: the position, the trade
ledger, the equity curve and the local `capital` variable.  `entry_fills` is
the ghost counter described in the file header. -/
structure EngState where
  position : PositionState := {}
  trades : List Trade := []
  equity_curve : List EquityPoint := []
  capital : ℚ := 0
  entry_fills : Nat := 0
deriving DecidableEq

/-- Order execution, the body of `engine.py::run`'s
`if order is not None ...` block: given the already-resolved fill price and
fill time, apply one order dict to the engine state.  The returned `Bool` is
`true` exactly on the `continue` statement (EXIT while FLAT), which in the
source skips the equity snapshot of the current bar. -/
def applyOrder (cfg : EngineConfig) (fillPrice : ℚ) (fillTime : Int)
    (symbol : String) (o : OrderDict) (es : EngState) : EngState × Bool :=
  match o.action with
  | .ENTER =>
    let qty0 := o.qty.getD cfg.DEFAULT_QTY
    let qty := if qty0 ≤ 0 then cfg.DEFAULT_QTY else qty0
    match o.side with
    | some .LONG =>
      let px := fillPrice + cfg.SLIPPAGE_ABS
      ({ es with
          position := { side := .LONG, entry_price := some px, qty := qty,
                        entry_time := some fillTime },
          capital := es.capital - cfg.COMMISSION_FIXED,
          entry_fills := es.entry_fills + 1 }, false)
    | some .SHORT =>
      if cfg.ALLOW_SHORT then
        let px := fillPrice - cfg.SLIPPAGE_ABS
        ({ es with
            position := { side := .SHORT, entry_price := some px, qty := qty,
                          entry_time := some fillTime },
            capital := es.capital - cfg.COMMISSION_FIXED,
            entry_fills := es.entry_fills + 1 }, false)
      else (es, false)
    | _ => (es, false)
  | .EXIT =>
    match es.position.side with
    | .FLAT => (es, true)
    | .LONG =>
      let px := fillPrice - cfg.SLIPPAGE_ABS
      let pnl := (px - es.position.entry_price.getD 0) * es.position.qty
                   * cfg.POINT_VALUE - cfg.COMMISSION_FIXED
      ({ es with
          capital := es.capital + pnl,
          trades := es.trades ++
            [{ symbol := symbol, side := .LONG, qty := es.position.qty,
               entry_time := es.position.entry_time.getD 0,
               entry_price := es.position.entry_price.getD 0,
               exit_time := fillTime, exit_price := px, pnl := pnl,
               reason := o.reason.getD "NA" }],
          position := {} }, false)
    | .SHORT =>
      let px := fillPrice + cfg.SLIPPAGE_ABS
      let pnl := (es.position.entry_price.getD 0 - px) * es.position.qty
                   * cfg.POINT_VALUE - cfg.COMMISSION_FIXED
      ({ es with
          capital := es.capital + pnl,
          trades := es.trades ++
            [{ symbol := symbol, side := .SHORT, qty := es.position.qty,
               entry_time := es.position.entry_time.getD 0,
               entry_price := es.position.entry_price.getD 0,
               exit_time := fillTime, exit_price := px, pnl := pnl,
               reason := o.reason.getD "NA" }],
          position := {} }, false)

/-- Fill price and time resolution of `engine.py::run` (`exec_index` /
`exec_field`): the current bar's close, or the next bar's open when the
timing is `next_open` and a next bar exists (`"next_open"` falls back to
the current close on the last bar). -/
def fillOf (cfg : EngineConfig) (bar : Bar) (rest : List Bar) : ℚ × Int :=
  match cfg.EXECUTION_TIMING, rest with
  | .next_open, nb :: _ => (nb.open_price, nb.time)
  | _, _ => (bar.close, bar.time)

/-- The bar loop of `engine.py::run`.  The strategy is an explicit step
function over its own state `σ` (in the source, a mutable object with an
`on_bar` method). -/
def engineLoop (cfg : EngineConfig) (step : σ → Bar → σ × Option OrderDict)
    (symbol : String) : σ → EngState → List Bar → EngState
  | _, es, [] => es
  | st, es, bar :: rest =>
    let so := step st bar
    let es2 :=
      match so.2 with
      | none =>
        { es with equity_curve :=
            es.equity_curve ++ [{ time := bar.time, equity := es.capital }] }
      | some o =>
        let fill := fillOf cfg bar rest
        let r := applyOrder cfg fill.1 fill.2 symbol o es
        if r.2 then r.1
        else
          { r.1 with equity_curve :=
              r.1.equity_curve ++ [{ time := bar.time, equity := r.1.capital }] }
    engineLoop cfg step symbol so.1 es2 rest

/-- `engine.py::BacktestEngine.run`: fresh runtime state (capital =
`INITIAL_CAPITAL`, flat position, empty ledger and equity curve), then the
bar loop.  The final `EngState` carries everything the returned result dict
exposes (`trades`, `equity_curve`, `final_equity = capital`) plus the
engine's position. -/
def runEngine (cfg : EngineConfig) (step : σ → Bar → σ × Option OrderDict)
    (s0 : σ) (symbol : String) (bars : List Bar) : EngState :=
  engineLoop cfg step symbol s0
    { position := {}, trades := [], equity_curve := [],
      capital := cfg.INITIAL_CAPITAL, entry_fills := 0 } bars

/-- A scripted strategy: emits the `i`-th entry of `script` on the `i`-th
bar.  `engine.py::run` accepts any object with an `on_bar` method; this is
the simplest such strategy and is used to exercise the engine directly. -/
def scriptStep (script : List (Option OrderDict)) :
    Nat → Bar → Nat × Option OrderDict :=
  fun i _ => (i + 1, match script.get? i with | some o => o | none => none)

/-! ## Indicators (`src/indicators/atr.py`, `donchian.py`, `ema.py`)

The strategy recomputes every indicator over the full bar buffer on each
bar and then reads only the value in the last row
(`turtle_like.py::_compute_indicators`, `_maybe_*` use `self._df.iloc[-1]`).
The definitions below compute exactly that last-row value.  A rolling
window with `min_periods = window` yields `NaN` (here: `none`) until
`window` observations exist. -/

/-- True range of each bar
(`atr.py::true_range`): `max(high-low, |high-prevClose|, |low-prevClose|)`;
in the first row the two `prevClose` terms are `NaN` and pandas'
`max(axis=1)` skips them, leaving `high - low`. -/
def trList : List Bar → List ℚ
  | [] => []
  | b :: rest => (b.high - b.low) :: trListAux b.close rest
where
  trListAux (prevClose : ℚ) : List Bar → List ℚ
    | [] => []
    | b :: rest =>
      max (b.high - b.low)
          (max |b.high - prevClose| |b.low - prevClose|)
        :: trListAux b.close rest

/-- Last `n` elements of a list (the window a pandas `rolling(n)` sees in
the final row). -/
def lastN (n : Nat) (l : List α) : List α := l.drop (l.length - n)

/-- Maximum of a list of rationals, `none` on the empty list. -/
def listMax : List ℚ → Option ℚ
  | [] => none
  | x :: xs => some (xs.foldl max x)

/-- Minimum of a list of rationals, `none` on the empty list. -/
def listMin : List ℚ → Option ℚ
  | [] => none
  | x :: xs => some (xs.foldl min x)

/-- `atr.py::atr` evaluated in the last row: simple moving average of the
true range over `window` bars, `NaN` (`none`) until `window` bars exist. -/
def atrLast (bars : List Bar) (window : Nat) : Option ℚ :=
  if 1 ≤ window ∧ window ≤ bars.length then
    some ((lastN window (trList bars)).sum / (window : ℚ))
  else none

/-- `donchian.py::donchian_high` evaluated in the last row: rolling maximum
of `high` over `window` bars (the window includes the current bar). -/
def donchianHighLast (bars : List Bar) (window : Nat) : Option ℚ :=
  if 1 ≤ window ∧ window ≤ bars.length then
    listMax (lastN window (bars.map (fun b => b.high)))
  else none

/-- `donchian.py::donchian_low` evaluated in the last row: rolling minimum
of `low` over `window` bars (the window includes the current bar). -/
def donchianLowLast (bars : List Bar) (window : Nat) : Option ℚ :=
  if 1 ≤ window ∧ window ≤ bars.length then
    listMin (lastN window (bars.map (fun b => b.low)))
  else none

/-- `ema.py::ema` (pandas `ewm(span=l, adjust=False).mean()`) evaluated in
the last row: `e_0 = c_0`, `e_t = α·c_t + (1-α)·e_(t-1)` with
`α = 2/(span+1)`.  With `adjust=False` and the default `min_periods = 0`
the value is defined from the first row on, so the result is total; the
unreachable empty-buffer case returns `0`. -/
def emaLast (closes : List ℚ) (span : Nat) : ℚ :=
  match closes with
  | [] => 0
  | c0 :: rest =>
    rest.foldl
      (fun e c => (2 / ((span : ℚ) + 1)) * c + (1 - 2 / ((span : ℚ) + 1)) * e)
      c0

/-! ## Turtle-like strategy (`src/strategies/turtle_like.py`) -/

/-- `turtle_like.py::TurtleParams` (defaults as in the source;
`TIMEFRAME` is a log-only string and is omitted). -/
structure TurtleParams where
  RISK_PER_TRADE : ℚ := 1/20
  BASE_CAPITAL : ℚ := 1000
  MAX_LEVERAGE : ℚ := 2
  ALLOW_SHORT : Bool := true
  VALUE_PER_POINT : ℚ := 1
  MIN_QTY : ℚ := 1/1000
  MAX_QTY : ℚ := 1000000000
  ATR_LEN : Nat := 20
  EMA_TREND_LEN : Nat := 200
  USE_TREND_FILTER : Bool := true
  DONCHIAN_ENTRY_X : Nat := 20
  CONFIRM_ON_CLOSE : Bool := true
  STOP_K : ℚ := 1
  USE_TRAIL_ATR : Bool := true
  TRAIL_K : ℚ := 5/2
  USE_DONCHIAN_EXIT : Bool := true
  DONCHIAN_EXIT_Y : Nat := 20
  PYRAMID_UNITS : Nat := 0
  PYRAMID_STEP_ATR : ℚ := 1/2
  SLIPPAGE_PER_TICK : ℚ := 1/2
  COMMISSION_PER_TRADE : ℚ := 0
  STRICT_VALIDATION : Bool := true
deriving DecidableEq

/-- The checks of `TurtleParams.validate`.  `isinstance` checks are
vacuous under typed fields; the remaining checks are the lower bounds and
`MIN_QTY <= MAX_QTY`.  Note the source really does require
`PYRAMID_UNITS >= 1` (it is in the `>= 1` integer group), although its own
docstring advertises `0` as a valid value. -/
def paramsValid (p : TurtleParams) : Bool :=
  decide (0 < p.RISK_PER_TRADE) && decide (0 < p.BASE_CAPITAL) &&
  decide (0 < p.VALUE_PER_POINT) && decide (0 < p.MIN_QTY) &&
  decide (0 < p.STOP_K) && decide (0 < p.TRAIL_K) &&
  decide (1 ≤ p.MAX_LEVERAGE) && decide (0 ≤ p.SLIPPAGE_PER_TICK) &&
  decide (0 ≤ p.COMMISSION_PER_TRADE) &&
  decide (1 ≤ p.ATR_LEN) && decide (1 ≤ p.EMA_TREND_LEN) &&
  decide (2 ≤ p.DONCHIAN_ENTRY_X) && decide (2 ≤ p.DONCHIAN_EXIT_Y) &&
  decide (1 ≤ p.PYRAMID_UNITS) && decide (p.MIN_QTY ≤ p.MAX_QTY)

/-- Mutable strategy state of `TurtleLikeStrategy` (bar buffer, position
bookkeeping, pyramiding counters).  `closed_trades` is reporting-only and
omitted.  `df_cached` models the `self._df` cache: `false` is Python
`None`; since the dataframe's contents are a pure function of `bars`
(recomputed by the indicator functions here), only its presence is
state. -/
structure TurtleState where
  bars : List Bar := []
  df_cached : Bool := false
  position : Side := .FLAT
  entry_price : Option ℚ := none
  stop_price : Option ℚ := none
  qty : ℚ := 0
  added_units : Nat := 0
  next_add_price : Option ℚ := none
deriving DecidableEq

/-- `TurtleLikeStrategy.__init__`: `params.validate()` raises `ValueError`
(modelled as a single error token, the messages differ per check) when
`STRICT_VALIDATION` is set and some check fails; otherwise `_err` is a
no-op (the source corrects nothing despite its comment) and construction
yields the fresh state. -/
def mkStrategyE (p : TurtleParams) : Except String TurtleState :=
  if p.STRICT_VALIDATION && !paramsValid p then Except.error "ValueError"
  else Except.ok {}

/-- Last bar of the buffer (`self._df.iloc[-1]`); only ever applied to a
non-empty buffer. -/
def lastBar (bars : List Bar) : Bar := bars.getLast?.getD default

/-- Python `self.stop_price or -np.inf` followed by `max` with the
candidate: `None` — and, because `or` tests falsiness, also `0.0` — is
replaced by `-inf`, so the `max` returns the candidate alone. -/
def pyMaxOrNegInf (sp : Option ℚ) (candidate : ℚ) : ℚ :=
  match sp with
  | none => candidate
  | some v => if v = 0 then candidate else max v candidate

/-- Python `self.stop_price or np.inf` followed by `min` with the
candidate; `None` and `0.0` are falsy and give `+inf`. -/
def pyMinOrPosInf (sp : Option ℚ) (candidate : ℚ) : ℚ :=
  match sp with
  | none => candidate
  | some v => if v = 0 then candidate else min v candidate

/-- `turtle_like.py::_compute_next_add_price`. -/
def computeNextAddPrice (p : TurtleParams) (side : Side) (refPrice a : ℚ) :
    Option ℚ :=
  if p.PYRAMID_UNITS = 0 then none
  else if p.PYRAMID_STEP_ATR ≤ 0 ∨ a ≤ 0 then none
  else
    match side with
    | .LONG => some (refPrice + p.PYRAMID_STEP_ATR * a)
    | .SHORT => some (refPrice - p.PYRAMID_STEP_ATR * a)
    | .FLAT => none

/-- `turtle_like.py::_compute_qty_and_stop`: risk-based size, clamped to
`[MIN_QTY, MAX_QTY]`, and the initial stop at `STOP_K * ATR` from entry. -/
def computeQtyAndStop (p : TurtleParams) (side : Side) (entryPrice a : ℚ) :
    ℚ × ℚ :=
  let denom := max (1 / 1000000000000 : ℚ) (p.STOP_K * a * p.VALUE_PER_POINT)
  let rawQty := p.BASE_CAPITAL * p.RISK_PER_TRADE / denom
  let qty := max p.MIN_QTY (min rawQty p.MAX_QTY)
  let stopInit :=
    match side with
    | .SHORT => entryPrice + p.STOP_K * a
    | _ => entryPrice - p.STOP_K * a
  (qty, stopInit)

/-- The updated trailing stop of `_maybe_exit` (assigned before the exit
test whenever `USE_TRAIL_ATR` is set and the position is open). -/
def newTrailStop (p : TurtleParams) (pos : Side) (sp : Option ℚ)
    (close a : ℚ) : Option ℚ :=
  if p.USE_TRAIL_ATR then
    match pos with
    | .LONG => some (pyMaxOrNegInf sp (close - p.TRAIL_K * a))
    | .SHORT => some (pyMinOrPosInf sp (close + p.TRAIL_K * a))
    | .FLAT => sp
  else sp

/-- `exit_by_atr` of `_maybe_exit`: the close has reached the (already
updated) trailing stop. -/
def exitByAtrFlag (p : TurtleParams) (pos : Side) (sp : Option ℚ)
    (close a : ℚ) : Bool :=
  p.USE_TRAIL_ATR &&
    match pos with
    | .LONG =>
      decide (close ≤ pyMaxOrNegInf sp (close - p.TRAIL_K * a))
    | .SHORT =>
      decide (pyMinOrPosInf sp (close + p.TRAIL_K * a) ≤ close)
    | .FLAT => false

/-- `exit_by_donch` of `_maybe_exit`: the close has crossed the opposite
Donchian channel over window `DONCHIAN_EXIT_Y`. -/
def exitByDonchFlag (p : TurtleParams) (pos : Side) (bars : List Bar)
    (close : ℚ) : Bool :=
  p.USE_DONCHIAN_EXIT &&
    match pos with
    | .LONG =>
      match donchianLowLast bars p.DONCHIAN_EXIT_Y with
      | some dl => decide (close < dl)
      | none => false
    | .SHORT =>
      match donchianHighLast bars p.DONCHIAN_EXIT_Y with
      | some dh => decide (dh < close)
      | none => false
    | .FLAT => false

/-- `turtle_like.py::_maybe_exit`: trailing-ATR and Donchian-inverse exits
with OR semantics; the trailing stop is updated even when no exit fires;
on an exit the whole position state is reset and the order's reason is
`TRAIL_ATR` when `exit_by_atr` is set, otherwise `DONCHIAN_INVERSE`. -/
def maybeExit (p : TurtleParams) (s : TurtleState) :
    TurtleState × Option OrderDict :=
  if s.position = .FLAT then (s, none)
  else
    let close := (lastBar s.bars).close
    match atrLast s.bars p.ATR_LEN with
    | none => (s, none)
    | some a =>
      if a ≤ 0 then (s, none)
      else
        let stop2 := newTrailStop p s.position s.stop_price close a
        let exit_by_atr := exitByAtrFlag p s.position s.stop_price close a
        let exit_by_donch := exitByDonchFlag p s.position s.bars close
        if exit_by_atr || exit_by_donch then
          let reason := if exit_by_atr then "TRAIL_ATR" else "DONCHIAN_INVERSE"
          ({ s with position := .FLAT, entry_price := none,
                    stop_price := none, qty := 0, added_units := 0,
                    next_add_price := none },
           some { action := .EXIT, qty := some s.qty, reason := some reason })
        else ({ s with stop_price := stop2 }, none)

/-- `turtle_like.py::_maybe_pyramid`: on a favorable move of
`PYRAMID_STEP_ATR * ATR` beyond the trigger, emit an ENTER of the same
size as the current `self.qty` (the initial leg — adds never change it),
bump `added_units` and advance the trigger from the old trigger using the
current bar's ATR. -/
def maybePyramid (p : TurtleParams) (s : TurtleState) :
    TurtleState × Option OrderDict :=
  if s.position = .FLAT ∨ p.PYRAMID_UNITS = 0 then (s, none)
  else
    let close := (lastBar s.bars).close
    match atrLast s.bars p.ATR_LEN with
    | none => (s, none)
    | some a =>
      if a ≤ 0 then (s, none)
      else if p.PYRAMID_UNITS ≤ s.added_units then (s, none)
      else
        match s.next_add_price with
        | none => (s, none)
        | some nap =>
          if s.position = .LONG ∧ nap ≤ close then
            ({ s with added_units := s.added_units + 1,
                      next_add_price := computeNextAddPrice p .LONG nap a },
             some { action := .ENTER, side := some .LONG, qty := some s.qty,
                    reason := some "PYRAMID" })
          else if s.position = .SHORT ∧ close ≤ nap then
            ({ s with added_units := s.added_units + 1,
                      next_add_price := computeNextAddPrice p .SHORT nap a },
             some { action := .ENTER, side := some .SHORT, qty := some s.qty,
                    reason := some "PYRAMID" })
          else (s, none)

/-- `turtle_like.py::_maybe_enter`: Donchian breakout entry (both
`CONFIRM_ON_CLOSE` branches compare `close` against the channel, so the
flag is immaterial), optional EMA trend filter (the EMA of
`ewm(adjust=False)` is defined from the first row on, so its `None` guard
is unreachable), risk sizing and initial stop, then the position fields
and the pyramiding trigger are initialised.  Note the Donchian window
includes the current bar. -/
def maybeEnter (p : TurtleParams) (s : TurtleState) :
    TurtleState × Option OrderDict :=
  let close := (lastBar s.bars).close
  match atrLast s.bars p.ATR_LEN with
  | none => (s, none)
  | some a =>
    if a ≤ 0 then (s, none)
    else
      let dhX := donchianHighLast s.bars p.DONCHIAN_ENTRY_X
      let dlX := donchianLowLast s.bars p.DONCHIAN_ENTRY_X
      let emaOkLong :=
        if p.USE_TREND_FILTER then
          decide (emaLast (s.bars.map (fun b => b.close)) p.EMA_TREND_LEN < close)
        else true
      let emaOkShort :=
        if p.USE_TREND_FILTER then
          decide (close < emaLast (s.bars.map (fun b => b.close)) p.EMA_TREND_LEN)
        else true
      let breakoutLong := match dhX with
        | some dh => decide (dh < close)
        | none => false
      let breakoutShort := match dlX with
        | some dl => decide (close < dl)
        | none => false
      if emaOkLong && breakoutLong then
        let qs := computeQtyAndStop p .LONG close a
        if qs.1 ≤ 0 then (s, none)
        else
          ({ s with position := .LONG, entry_price := some close,
                    qty := qs.1, stop_price := some qs.2, added_units := 0,
                    next_add_price := computeNextAddPrice p .LONG close a },
           some { action := .ENTER, side := some .LONG, qty := some qs.1 })
      else if p.ALLOW_SHORT && emaOkShort && breakoutShort then
        let qs := computeQtyAndStop p .SHORT close a
        if qs.1 ≤ 0 then (s, none)
        else
          ({ s with position := .SHORT, entry_price := some close,
                    qty := qs.1, stop_price := some qs.2, added_units := 0,
                    next_add_price := computeNextAddPrice p .SHORT close a },
           some { action := .ENTER, side := some .SHORT, qty := some qs.1 })
      else (s, none)

/-- History needed before the strategy evaluates anything:
`max(ATR_LEN, DONCHIAN_ENTRY_X, DONCHIAN_EXIT_Y) + 2` bars
(`turtle_like.py::on_bar`). -/
def historyThreshold (p : TurtleParams) : Nat :=
  max p.ATR_LEN (max p.DONCHIAN_ENTRY_X p.DONCHIAN_EXIT_Y) + 2

/-- The fixed evaluation order of `turtle_like.py::on_bar` once enough
history exists: exit check → pyramid check → (only when FLAT) entry check;
the first part returning an order wins. -/
def onBarDispatch (p : TurtleParams) (s : TurtleState) :
    TurtleState × Option OrderDict :=
  match maybeExit p s with
  | (s2, some o) => (s2, some o)
  | (s2, none) =>
    match maybePyramid p s2 with
    | (s3, some o) => (s3, some o)
    | (s3, none) =>
      if s3.position = .FLAT then maybeEnter p s3 else (s3, none)

/-- `turtle_like.py::on_bar` as written: `_append_bar` appends the bar AND
resets the cache (`self._df = None`); the guard then tests
`self._df is None or len(self._df) < max(...) + 2` BEFORE
`_compute_indicators` has run, so its first disjunct is true on every
call and `on_bar` always returns `None` — the dispatch after the guard is
dead code in actual runs (cf. `optimize/main_optimize.py`: "il est
probable qu'il n'y ait pas de trades").  The else branch models the
remaining source text: compute indicators (set the cache), then
dispatch. -/
def onBar (p : TurtleParams) (s : TurtleState) (bar : Bar) :
    TurtleState × Option OrderDict :=
  let s1 : TurtleState := { s with bars := s.bars ++ [bar], df_cached := false }
  if s1.df_cached = false ∨ s1.bars.length < historyThreshold p then (s1, none)
  else onBarDispatch p { s1 with df_cached := true }

/-! ## Grid search (`src/optimize/gridsearch.py`)

`run_grid` builds the cartesian product of the grid, runs one fresh
strategy+engine pair per combination, scores each run, and sorts the rows
by score, descending.  Modelling notes:

  * the `scorer` callable is an explicit argument of `run_grid` in the
    source; it is modelled as a function of the combination and of the run
    result (in the source it receives the trade/equity statistics, which
    are computed from exactly that result).  The `scorer is None` default
    (`CAGR/|MaxDD|`) involves a non-rational power and is outside the
    claims, so the model always takes the scorer explicitly;
  * a row keeps the combination and the columns the claims read
    (`nb_trades`, `final_equity`, `score`); the remaining metric columns
    are data the sort never consults;
  * `make_strategy(p)` may raise (strategy construction validates
    parameters); `run_grid` has no handler around the loop body, so the
    model is in the `Except` monad and the first raise aborts the sweep;
  * `sort_values("score", ascending=False)` is pandas `nargsort`, which
    reverses the column, takes an ascending argsort, and reverses the
    resulting indexer; with a stable ascending argsort this is exactly a
    stable descending sort, which is what `sortRowsByScoreDesc` computes.
    (numpy's default quicksort argsort is its stable insertion sort for at
    most 16 elements; for larger inputs it is documented as unstable and
    the model is exact only up to tie order.) -/

/-- One parameter combination, a name-to-value dict (values of the demo
grids are numeric). -/
def ParamSet : Type := List (String × ℚ)

instance : DecidableEq ParamSet := by
  unfold ParamSet
  infer_instance

/-- `gridsearch.py::product_dict`: cartesian product of the value lists in
key order, the last key varying fastest (`itertools.product`). -/
def productDict : List (String × List ℚ) → List ParamSet
  | [] => [[]]
  | (k, vs) :: rest =>
    (vs.map (fun v => (productDict rest).map (fun c => (k, v) :: c))).flatten

/-- One row of `run_grid`'s result table (the columns the claims read). -/
structure GridRow where
  params : ParamSet
  nb_trades : Nat
  final_equity : ℚ
  score : ℚ
deriving DecidableEq

/-- Stable insert into a score-ascending list: a row moves past exactly the
rows of strictly greater score, so equal scores keep their input order. -/
def insertAscByScore (r : GridRow) : List GridRow → List GridRow
  | [] => [r]
  | x :: xs =>
    if r.score < x.score then r :: x :: xs else x :: insertAscByScore r xs

/-- Stable ascending insertion sort by score. -/
def sortRowsByScoreAsc (l : List GridRow) : List GridRow :=
  l.foldl (fun acc r => insertAscByScore r acc) []

/-- `DataFrame.sort_values("score", ascending=False)` as performed by
pandas `nargsort` (see the section comment): stable ascending sort, then
reverse. -/
def sortRowsByScoreDesc (l : List GridRow) : List GridRow :=
  (sortRowsByScoreAsc l).reverse

/-- Sequential effectful map, the `for i, p in enumerate(combos, 1)` loop:
the first raise aborts everything after it. -/
def mapExcept (f : α → Except ε β) : List α → Except ε (List β)
  | [] => Except.ok []
  | x :: xs => do
    let y ← f x
    let ys ← mapExcept f xs
    pure (y :: ys)

/-- The body of `run_grid`'s loop for one grid point: construct a fresh
strategy (which may raise) and a fresh engine, run the backtest, and build
the result row.  `mk` returns the strategy's initial state and step
function. -/
def gridRowOf (cfg : EngineConfig) (bars : List Bar) (symbol : String)
    (mk : ParamSet → Except String (σ × (σ → Bar → σ × Option OrderDict)))
    (scorer : ParamSet → EngState → ℚ) (ps : ParamSet) :
    Except String GridRow := do
  let strat ← mk ps
  let r := runEngine cfg strat.2 strat.1 symbol bars
  pure { params := ps, nb_trades := r.trades.length,
         final_equity := r.capital, score := scorer ps r }

/-- `gridsearch.py::run_grid`: one row per element of the cartesian
product, then sort by descending score. -/
def runGrid (cfg : EngineConfig) (bars : List Bar) (symbol : String)
    (grid : List (String × List ℚ))
    (mk : ParamSet → Except String (σ × (σ → Bar → σ × Option OrderDict)))
    (scorer : ParamSet → EngState → ℚ) : Except String (List GridRow) := do
  let rows ← mapExcept (gridRowOf cfg bars symbol mk scorer) (productDict grid)
  pure (sortRowsByScoreDesc rows)

/-! ## Spec-side definitions and auxiliary predicates -/

/-- Modelled from the spec: `markToMarket(openPosition, bar.close)` — the
unrealised value of the open position at the given close, zero when flat
(spec §4.3 "Equity" and the glossary's "Equity curve").  Used only to
compare the spec's equity formula against the engine's recorded equity. -/
def markToMarketSpec (pos : PositionState) (close pointValue : ℚ) : ℚ :=
  match pos.side with
  | .FLAT => 0
  | .LONG => (close - pos.entry_price.getD 0) * pos.qty * pointValue
  | .SHORT => (pos.entry_price.getD 0 - close) * pos.qty * pointValue

/-- The bar's ATR is undefined (`NaN`) or nonpositive — the reject
condition shared by `_maybe_enter`, `_maybe_pyramid` and `_maybe_exit`. -/
def atrBad (bars : List Bar) (window : Nat) : Bool :=
  match atrLast bars window with
  | none => true
  | some a => decide (a ≤ 0)

/-- Cash-accounting invariant of the engine state: the `capital` variable
equals the initial capital, minus one fixed commission per entry fill,
plus the recorded pnl of every closed trade (each of which already
includes its own exit-side commission). -/
def capitalInv (cfg : EngineConfig) (es : EngState) : Prop :=
  es.capital = cfg.INITIAL_CAPITAL
      - cfg.COMMISSION_FIXED * es.entry_fills
      + (es.trades.map (fun t => t.pnl)).sum

/-! ## Concrete runs used by the claims

Bars are `⟨time, open, high, low, close⟩`.  Spec §3 only validates
`high ≥ low` (and increasing times) on input bars, and neither the engine
nor the strategy checks anything more; in particular `close > high` is
accepted, and it is in fact the only way `_maybe_enter`'s breakout
(`close > rolling max of high, current bar included`) can fire. -/

/-- Engine config for the skipped-equity run: execute at the current close. -/
def cfgC1 : EngineConfig :=
  { EXECUTION_TIMING := .close, SLIPPAGE_ABS := 1/2, COMMISSION_FIXED := 0,
    INITIAL_CAPITAL := 1000 }

/-- Two plain bars. -/
def barsC1 : List Bar := [⟨0, 100, 101, 99, 100⟩, ⟨1, 100, 101, 99, 100⟩]

/-- Script: an EXIT order on the first bar (while the engine is flat — the
engine is expected to ignore it), nothing afterwards. -/
def scriptC1 : List (Option OrderDict) :=
  [some { action := .EXIT }, none]

/-- Engine config matching spec §8's commission scenario:
`commission = 5`, `slippage = 0.5`, execution at the close. -/
def cfgC2 : EngineConfig :=
  { EXECUTION_TIMING := .close, SLIPPAGE_ABS := 1/2, COMMISSION_FIXED := 5,
    INITIAL_CAPITAL := 1000 }

/-- Closes 101 then 100, so the long entry fills at `101.5` and the exit
at `99.5` under `slippage = 0.5`. -/
def barsC2 : List Bar := [⟨0, 101, 102, 100, 101⟩, ⟨1, 100, 101, 99, 100⟩]

/-- Script: ENTER LONG qty 10 on the first bar, EXIT on the second. -/
def scriptC2 : List (Option OrderDict) :=
  [some { action := .ENTER, side := some .LONG, qty := some 10 },
   some { action := .EXIT, reason := some "MANUAL" }]

/-- Frictionless engine config (no slippage, no commission), execution at
the close. -/
def cfgC3 : EngineConfig :=
  { EXECUTION_TIMING := .close, SLIPPAGE_ABS := 0, COMMISSION_FIXED := 0,
    INITIAL_CAPITAL := 1000 }

/-- Script: ENTER LONG qty 1 on the first bar, then hold. -/
def scriptC3 : List (Option OrderDict) :=
  [some { action := .ENTER, side := some .LONG, qty := some 1 }, none]

/-- Turtle parameters with pyramiding enabled (2 units, step 0.5·ATR),
small windows, trend filter and both exit rules off. -/
def pC4 : TurtleParams :=
  { ATR_LEN := 1, DONCHIAN_ENTRY_X := 2, DONCHIAN_EXIT_Y := 2,
    USE_TREND_FILTER := false, STOP_K := 1, USE_TRAIL_ATR := false,
    USE_DONCHIAN_EXIT := false, PYRAMID_UNITS := 2, PYRAMID_STEP_ATR := 1/2 }

/-- Warmup, then a breakout bar (entry at close 10 with ATR 10, initial
qty 5, pyramid trigger 15), then a bar at close 15 that fires the pyramid
add. -/
def barsC4 : List Bar :=
  [⟨0, 5, 6, 4, 5⟩, ⟨1, 5, 6, 4, 5⟩, ⟨2, 5, 6, 4, 5⟩,
   ⟨3, 5, 6, -4, 10⟩, ⟨4, 15, 16, 14, 15⟩]

/-- Frictionless engine config for the pyramid run. -/
def cfgC4 : EngineConfig :=
  { EXECUTION_TIMING := .close, SLIPPAGE_ABS := 0, COMMISSION_FIXED := 0,
    INITIAL_CAPITAL := 1000 }

/-- The strategy state `_maybe_enter` constructs on the breakout bar of
`barsC4`: long 5 units from 10, pyramid trigger at 15. -/
def sC4mid : TurtleState := (maybeEnter pC4 { bars := barsC4.take 4 }).1

/-- That state with the trigger bar (close 15) appended, as
`_maybe_pyramid` would see it. -/
def sC4add : TurtleState := { sC4mid with bars := barsC4 }

/-- The engine state after filling the initial entry (close timing, no
slippage or commission): long 5 units from 10 at time 3. -/
def esC4entry : EngState :=
  (applyOrder cfgC4 10 3 "SYM"
    { action := .ENTER, side := some .LONG, qty := some 5 }
    { capital := 1000 }).1

/-- A strategy parameter set whose only invalid field is the entry window
`DONCHIAN_ENTRY_X = 0` (strict validation on by default, and
`PYRAMID_UNITS = 1` so every other check passes). -/
def pBadC5 : TurtleParams := { DONCHIAN_ENTRY_X := 0, PYRAMID_UNITS := 1 }

/-- Baseline parameters for the C5 sweep (all checks pass once a valid
entry window is substituted in). -/
def pC5Base : TurtleParams := { PYRAMID_UNITS := 1 }

/-- Numeric grid value to integer window, the `p.get(...)` glue of
`optimize/main_optimize.py::make_strategy`. -/
def qToNat (q : ℚ) : Nat := q.num.toNat

/-- A 1-axis grid whose first point carries the invalid window `0` and
whose second point carries the valid window `20`. -/
def gridC5 : List (String × List ℚ) := [("DONCHIAN_ENTRY_X", [0, 20])]

/-- Parameters of one C5 grid point. -/
def paramsOfC5 (ps : ParamSet) : TurtleParams :=
  { pC5Base with
      DONCHIAN_ENTRY_X := qToNat ((ps.lookup "DONCHIAN_ENTRY_X").getD 20) }

/-- `make_strategy` for the C5 sweep: build the params from the grid point
and construct the turtle strategy (construction validates). -/
def mkC5 (ps : ParamSet) :
    Except String (TurtleState × (TurtleState → Bar → TurtleState × Option OrderDict)) :=
  (mkStrategyE (paramsOfC5 ps)).map (fun s0 => (s0, onBar (paramsOfC5 ps)))

/-- Turtle parameters for the ATR-reject witness: tiny windows, trend
filter off. -/
def pC7 : TurtleParams :=
  { ATR_LEN := 1, DONCHIAN_ENTRY_X := 2, DONCHIAN_EXIT_Y := 2,
    USE_TREND_FILTER := false }

/-- Three flat bars already in the buffer (close = high = low = 5, so the
next true range is 0). -/
def sC7 : TurtleState :=
  { bars := [⟨0, 5, 5, 5, 5⟩, ⟨1, 5, 5, 5, 5⟩, ⟨2, 5, 5, 5, 5⟩] }

/-- A bar whose close 10 breaks the Donchian high 5 while its true range —
and hence ATR(1) — is 0. -/
def barC7 : Bar := ⟨3, 5, 5, 5, 10⟩

/-- Turtle parameters for the trailing-stop run: trailing on
(`TRAIL_K = 2.5`), Donchian exit off, no pyramiding. -/
def pC8 : TurtleParams :=
  { ATR_LEN := 1, DONCHIAN_ENTRY_X := 2, DONCHIAN_EXIT_Y := 2,
    USE_TREND_FILTER := false, STOP_K := 1, USE_TRAIL_ATR := true,
    TRAIL_K := 5/2, USE_DONCHIAN_EXIT := false, PYRAMID_UNITS := 0 }

/-- Warmup and a breakout bar at close 10 with ATR 10, which makes the
initial stop land exactly at `10 - 1·10 = 0`. -/
def barsC8pre : List Bar :=
  [⟨0, 5, 6, 4, 5⟩, ⟨1, 5, 6, 4, 5⟩, ⟨2, 5, 6, 4, 5⟩, ⟨3, 5, 6, -4, 10⟩]

/-- A wide-range follow-up bar (true range 15) whose trailing candidate
`10 - 2.5·15 = -27.5` is below the previous stop 0. -/
def barC8 : Bar := ⟨4, 10, 20, 5, 10⟩

/-- The position state `_maybe_enter` itself constructs on the breakout
bar: long 5 units from 10, stop exactly 0. -/
def sC8mid : TurtleState := (maybeEnter pC8 { bars := barsC8pre }).1

/-- That state one bar later — `_append_bar` has added the wide-range
bar, as `_maybe_exit` would see it. -/
def sC8ext : TurtleState := { sC8mid with bars := barsC8pre ++ [barC8] }

/-- Turtle parameters for the double-exit witness: both exit rules on. -/
def pC9 : TurtleParams :=
  { ATR_LEN := 1, DONCHIAN_ENTRY_X := 2, DONCHIAN_EXIT_Y := 2,
    USE_TREND_FILTER := false, USE_TRAIL_ATR := true, TRAIL_K := 5/2,
    USE_DONCHIAN_EXIT := true }

/-- An open long position (entry 10, stop 8) over three warmup bars. -/
def sC9 : TurtleState :=
  { bars := [⟨0, 5, 6, 4, 5⟩, ⟨1, 5, 6, 4, 5⟩, ⟨2, 5, 6, 4, 5⟩],
    position := .LONG, entry_price := some 10, stop_price := some 8,
    qty := 5 }

/-- A crash bar: close 1 is at once below the stop 8 (ATR-trail exit) and
below the Donchian low 4 (inverse exit). -/
def barC9 : Bar := ⟨3, 10, 11, 6, 1⟩

/-- The open-long state with the crash bar appended, as `_maybe_exit`
sees it. -/
def sC9x : TurtleState := { sC9 with bars := sC9.bars ++ [barC9] }

/-- An ENTER LONG order carrying a negative quantity. -/
def ordC10 : OrderDict :=
  { action := .ENTER, side := some .LONG, qty := some (-3) }

/-- Whether an `Except` computation succeeded. -/
def exceptIsOk : Except ε α → Bool
  | .ok _ => true
  | .error _ => false

deriving instance DecidableEq for Except

/-- Strategy state right before the pyramid add of the `barsC4` run: long
5 units from entry 10, trigger at 15, current close 15 with ATR 6. -/
def sW4 : TurtleState :=
  { bars := barsC4, position := .LONG, entry_price := some 10,
    stop_price := some 0, qty := 5, added_units := 0,
    next_add_price := some 15 }

/-- Engine state holding the matching initial leg. -/
def esW4 : EngState :=
  { position := { side := .LONG, entry_price := some 10, qty := 5,
                  entry_time := some 3 },
    capital := 1000 }

/-! ## Theorems -/

/-- C1: the claim says every processed bar gets exactly one equity point,
bars with ignored signals included.  In the source, an EXIT order arriving
while the position is FLAT hits a `continue` that skips the equity
snapshot of that bar: over two bars with such an ignored EXIT on the
first, the equity curve has one point, not two. -/
theorem C1_exit_while_flat_drops_equity_point :
    (runEngine cfgC1 (scriptStep scriptC1) 0 "SYM" barsC1).equity_curve.length = 1
      ∧ barsC1.length = 2 := by
  constructor <;> rfl

/-- C2: in the spec §8 scenario (commission 5 per side, slippage 0.5, long
qty 10, entry fill 101.5, exit fill 99.5) the recorded trade pnl is −25:
the engine subtracts only the exit-side commission from the trade's pnl
(the entry-side commission is taken from capital but never enters the
`Trade`), while the claim's formula `(X−E)·Q·POINT_VALUE − 2·C` gives −30. -/
theorem C2_trade_pnl_misses_entry_commission :
    (runEngine cfgC2 (scriptStep scriptC2) 0 "SYM" barsC2).trades =
      [{ symbol := "SYM", side := .LONG, qty := 10, entry_time := 0,
         entry_price := 203/2, exit_time := 1, exit_price := 199/2,
         pnl := -25, reason := "MANUAL" }]
    ∧ ((199/2 : ℚ) - 203/2) * 10 * cfgC2.POINT_VALUE
        - 2 * cfgC2.COMMISSION_FIXED = -30
    ∧ (-25 : ℚ) ≠ -30 := by
  refine ⟨by decide!, by norm_num [cfgC2], by norm_num⟩

/-- C3 counterexample: with a long position of 1 unit from entry 101 held
through a bar closing at 100, the engine records equity 1000 (its cash)
for that bar, while the claim's `cash + markToMarket(position, close)`
is 999 — open positions are not marked to market in the equity curve. -/
theorem C3_counterexample_equity_is_not_marked_to_market :
    (runEngine cfgC3 (scriptStep scriptC3) 0 "SYM" barsC2).equity_curve =
      [{ time := 0, equity := 1000 }, { time := 1, equity := 1000 }]
    ∧ (runEngine cfgC3 (scriptStep scriptC3) 0 "SYM" barsC2).position =
      { side := .LONG, entry_price := some 101, qty := 1, entry_time := some 0 }
    ∧ (runEngine cfgC3 (scriptStep scriptC3) 0 "SYM" barsC2).capital
        + markToMarketSpec
            (runEngine cfgC3 (scriptStep scriptC3) 0 "SYM" barsC2).position
            100 cfgC3.POINT_VALUE = 999
    ∧ (1000 : ℚ) ≠ 999 := by
  refine ⟨by decide!, by decide!, by decide!, by norm_num⟩

/-- C4 counterexample (at the cited components, since the dead `_df`
guard in `on_bar` keeps whole-run positions flat): on `barsC4`,
`_maybe_enter` opens long 5 units at 10 (engine position: 5 units from
10), the trigger bar makes `_maybe_pyramid` emit a same-size add of 5 —
and the engine's `_enter_long` then holds 5 units from entry 15: the
position was REPLACED, not grown to 10 units on the original basis 10. -/
theorem C4_counterexample_engine_replaces_position_on_add :
    (maybeEnter pC4 { bars := barsC4.take 4 }).2 =
      some { action := .ENTER, side := some Side.LONG, qty := some 5 }
    ∧ esC4entry.position =
      { side := .LONG, entry_price := some 10, qty := 5, entry_time := some 3 }
    ∧ (maybePyramid pC4 sC4add).2 =
      some { action := .ENTER, side := some Side.LONG, qty := some 5,
             reason := some "PYRAMID" }
    ∧ (applyOrder cfgC4 15 4 "SYM"
        { action := .ENTER, side := some Side.LONG, qty := some 5,
          reason := some "PYRAMID" } esC4entry).1.position =
      { side := .LONG, entry_price := some 15, qty := 5, entry_time := some 4 }
    ∧ (5 : ℚ) ≠ 5 + 5
    ∧ (some (15 : ℚ)) ≠ some 10 := by
  refine ⟨by decide!, by decide!, by decide!, by decide!, by norm_num, by simp⟩

/-- C5 counterexample: a grid whose first point carries the invalid entry
window 0 — strategy construction raises, and `run_grid`, having no
handler, aborts the whole sweep with that error instead of returning a
table that skips the bad point and covers the remaining one. -/
theorem C5_counterexample_sweep_aborts_on_invalid_point :
    mkStrategyE pBadC5 = Except.error "ValueError"
    ∧ runGrid cfgC3 [] "SYM" gridC5 mkC5 (fun _ _ => 0) =
        Except.error "ValueError"
    ∧ (productDict gridC5).length = 2 := by
  refine ⟨by decide!, by decide!, rfl⟩

/-- C8: the claim says a long position's stop never decreases bar to bar
(`max(previous stop, close − TRAIL_K·ATR)`).  On `barsC8pre`,
`_maybe_enter` itself lands the stop exactly at 0; one wide-range bar
later `_maybe_exit`'s update `max(self.stop_price or -np.inf, candidate)`
treats the stop 0.0 as unset (Python `or` falsiness) and replaces it by
the candidate `10 − 2.5·15 = −27.5`, so the stop falls from 0 to −27.5
while the position stays long. -/
theorem C8_trailing_stop_decreases_through_zero :
    sC8mid.position = .LONG
    ∧ sC8mid.stop_price = some 0
    ∧ (maybeExit pC8 sC8ext).1.position = .LONG
    ∧ (maybeExit pC8 sC8ext).1.stop_price = some (-55/2)
    ∧ (-55/2 : ℚ) < 0 := by
  refine ⟨by decide!, by decide!, by decide!, by decide!, by norm_num⟩

/-- C10: an ENTER order whose quantity is missing, zero or negative is not
rejected: the engine substitutes `DEFAULT_QTY` and opens the position with
it (and the configured default of `DEFAULT_QTY` is `1.0`). -/
theorem C10_default_qty_on_missing_or_nonpositive
    (cfg : EngineConfig) (fp : ℚ) (ft : Int) (sym : String) (o : OrderDict)
    (es : EngState)
    (ha : o.action = .ENTER)
    (hside : o.side = some Side.LONG ∨
      (o.side = some Side.SHORT ∧ cfg.ALLOW_SHORT = true))
    (hq : o.qty = none ∨ ∃ q, o.qty = some q ∧ q ≤ 0) :
    (applyOrder cfg fp ft sym o es).1.position.qty = cfg.DEFAULT_QTY
    ∧ (applyOrder cfg fp ft sym o es).1.position.side ≠ Side.FLAT
    ∧ ({} : EngineConfig).DEFAULT_QTY = 1 := by
  have hqty : (if (o.qty.getD cfg.DEFAULT_QTY) ≤ 0 then cfg.DEFAULT_QTY
      else o.qty.getD cfg.DEFAULT_QTY) = cfg.DEFAULT_QTY := by
    rcases hq with hnone | ⟨q, hqs, hle⟩
    · rw [hnone]; split <;> rfl
    · rw [hqs]; simp [hle]
  rcases hside with hs | ⟨hs, hallow⟩
  · simp [applyOrder, ha, hs, hqty]
  · simp [applyOrder, ha, hs, hallow, hqty]

/-- C10 witness: the ENTER LONG order with qty −3 is filled with the
configured default quantity 1. -/
theorem C10_default_qty_witness :
    (applyOrder cfgC3 100 0 "SYM" ordC10 { capital := 1000 }).1.position.qty
        = cfgC3.DEFAULT_QTY
    ∧ (applyOrder cfgC3 100 0 "SYM" ordC10 { capital := 1000 }).1.position.side
        ≠ Side.FLAT
    ∧ ({} : EngineConfig).DEFAULT_QTY = 1 :=
  C10_default_qty_on_missing_or_nonpositive cfgC3 100 0 "SYM" ordC10
    { capital := 1000 } rfl (Or.inl rfl) (Or.inr ⟨-3, rfl, by norm_num⟩)

/-- C4 amended: when the pyramid trigger fires for a long position
(`addedUnits < PYRAMID_UNITS`, valid ATR, close at or beyond the trigger),
the strategy emits an ENTER of exactly the current `self.qty` (the initial
leg's size, which adds never change), increments `added_units` — so at most
`PYRAMID_UNITS` adds can fire — and advances the trigger by
`PYRAMID_STEP_ATR` times the current ATR; the engine, however, REPLACES its
open position with that single unit (`_enter_long` overwrites qty, entry
price and entry time), so the filled quantity does not grow and the
original entry basis is lost. -/
theorem C4_amended_add_same_size_but_engine_replaces
    (p : TurtleParams) (s : TurtleState) (a nap : ℚ)
    (cfg : EngineConfig) (es : EngState) (fp : ℚ) (ft : Int) (sym : String)
    (hpos : s.position = Side.LONG)
    (hatr : atrLast s.bars p.ATR_LEN = some a) (ha : 0 < a)
    (hstep : 0 < p.PYRAMID_STEP_ATR)
    (hadded : s.added_units < p.PYRAMID_UNITS)
    (hnap : s.next_add_price = some nap)
    (htrig : nap ≤ (lastBar s.bars).close)
    (hq : 0 < s.qty) :
    (maybePyramid p s).2 =
      some { action := .ENTER, side := some Side.LONG, qty := some s.qty,
             reason := some "PYRAMID" }
    ∧ (maybePyramid p s).1.added_units = s.added_units + 1
    ∧ (maybePyramid p s).1.added_units ≤ p.PYRAMID_UNITS
    ∧ (maybePyramid p s).1.next_add_price =
        some (nap + p.PYRAMID_STEP_ATR * a)
    ∧ (maybePyramid p s).1.qty = s.qty
    ∧ (applyOrder cfg fp ft sym
         { action := .ENTER, side := some Side.LONG, qty := some s.qty,
           reason := some "PYRAMID" } es).1.position =
      { side := Side.LONG, entry_price := some (fp + cfg.SLIPPAGE_ABS),
        qty := s.qty, entry_time := some ft } := by
  have hPU : ¬(s.position = Side.FLAT ∨ p.PYRAMID_UNITS = 0) := by
    simp [hpos]
    omega
  have hnle : ¬ a ≤ 0 := not_le.mpr ha
  have hnle2 : ¬ p.PYRAMID_UNITS ≤ s.added_units := Nat.not_le.mpr hadded
  have hnext : computeNextAddPrice p .LONG nap a =
      some (nap + p.PYRAMID_STEP_ATR * a) := by
    unfold computeNextAddPrice
    have : ¬ (p.PYRAMID_STEP_ATR ≤ 0 ∨ a ≤ 0) := by
      simp [not_le.mpr hstep, hnle]
    simp [this]
    omega
  have hqn : ¬ s.qty ≤ 0 := not_le.mpr hq
  have hPUne : p.PYRAMID_UNITS ≠ 0 := by omega
  refine ⟨?_, ?_, ?_, ?_, ?_, ?_⟩ <;>
    simp [maybePyramid, hPU, hPUne, hatr, hnle, hnle2, hnap, hpos, htrig,
      hnext, applyOrder, hqn]
  omega

/-- C4 amended witness: the concrete pre-add state of the `barsC4` run —
the add order carries the initial size 5, the trigger advances from 15 to
18 (step `0.5·ATR = 3`), and the engine's position after the fill is the
single 5-unit leg from price 15. -/
theorem C4_amended_witness :
    (maybePyramid pC4 sW4).2 =
      some { action := .ENTER, side := some Side.LONG, qty := some sW4.qty,
             reason := some "PYRAMID" }
    ∧ (maybePyramid pC4 sW4).1.added_units = sW4.added_units + 1
    ∧ (maybePyramid pC4 sW4).1.added_units ≤ pC4.PYRAMID_UNITS
    ∧ (maybePyramid pC4 sW4).1.next_add_price =
        some (15 + pC4.PYRAMID_STEP_ATR * 6)
    ∧ (maybePyramid pC4 sW4).1.qty = sW4.qty
    ∧ (applyOrder cfgC4 15 4 "SYM"
         { action := .ENTER, side := some Side.LONG, qty := some sW4.qty,
           reason := some "PYRAMID" } esW4).1.position =
      { side := Side.LONG, entry_price := some (15 + cfgC4.SLIPPAGE_ABS),
        qty := sW4.qty, entry_time := some 4 } :=
  C4_amended_add_same_size_but_engine_replaces pC4 sW4 6 15 cfgC4 esW4 15 4
    "SYM" rfl (by decide!) (by norm_num) (by norm_num [pC4]) (by decide)
    rfl (by decide!) (by decide!)

/-- C9: when both exit conditions fire on the same bar for an open
position (`exit_by_atr` and `exit_by_donch` both true, valid ATR),
`_maybe_exit` returns exactly one order, an EXIT whose reported reason is
`TRAIL_ATR` — the ATR-trail reason wins the tie. -/
theorem C9_both_exits_report_trail_atr
    (p : TurtleParams) (s : TurtleState) (a : ℚ)
    (hpos : s.position ≠ Side.FLAT)
    (hatr : atrLast s.bars p.ATR_LEN = some a)
    (ha : 0 < a)
    (hA : exitByAtrFlag p s.position s.stop_price
        (lastBar s.bars).close a = true)
    (hD : exitByDonchFlag p s.position s.bars
        (lastBar s.bars).close = true) :
    ((maybeExit p s).2).map (fun o => (o.action, o.reason)) =
      some (OrderAction.EXIT, some "TRAIL_ATR") := by
  simp [maybeExit, hpos, hatr, not_le.mpr ha, hA, hD]

/-- C9 witness: on the crash bar both the trailing stop (close 1 ≤ stop 8)
and the Donchian low (close 1 < 4) fire, and the returned order is the
EXIT with reason `TRAIL_ATR`. -/
theorem C9_both_exits_witness :
    exitByAtrFlag pC9 sC9x.position sC9x.stop_price
        (lastBar sC9x.bars).close 6 = true
    ∧ exitByDonchFlag pC9 sC9x.position sC9x.bars
        (lastBar sC9x.bars).close = true
    ∧ ((maybeExit pC9 sC9x).2).map (fun o => (o.action, o.reason)) =
        some (OrderAction.EXIT, some "TRAIL_ATR") :=
  ⟨by decide!, by decide!,
   C9_both_exits_report_trail_atr pC9 sC9x 6 (by decide)
     (by decide!) (by norm_num) (by decide!) (by decide!)⟩

/-- Helper: the sequential loop fails as soon as any element of the list
fails (the `Except` bind short-circuits). -/
theorem mapExcept_not_ok {f : α → Except ε β} {l : List α} {x : α}
    (hx : x ∈ l) (hfx : exceptIsOk (f x) = false) :
    exceptIsOk (mapExcept f l) = false := by
  induction l with
  | nil => cases hx
  | cons y ys ih =>
    rcases List.mem_cons.mp hx with rfl | hmem
    · cases h : f x with
      | error e => simp only [mapExcept]; rw [h]; rfl
      | ok b => rw [h] at hfx; simp [exceptIsOk] at hfx
    · cases h : f y with
      | error e => simp only [mapExcept]; rw [h]; rfl
      | ok b =>
        have hys := ih hmem
        cases h2 : mapExcept f ys with
        | error e => simp only [mapExcept]; rw [h, h2]; rfl
        | ok bs => rw [h2] at hys; simp [exceptIsOk] at hys

/-- C5 amended: an invalid strategy parameter set (strict validation on,
some check failing — e.g. a non-positive window) raises at construction;
but `run_grid` has no exception handling, so when any grid point's
strategy construction fails, the whole sweep aborts with that error rather
than recording the point as skipped and continuing. -/
theorem C5_amended_construction_raises_and_sweep_aborts
    {σ : Type} (p : TurtleParams)
    (hstrict : p.STRICT_VALIDATION = true)
    (hbad : paramsValid p = false)
    (cfg : EngineConfig) (bars : List Bar) (sym : String)
    (grid : List (String × List ℚ))
    (mk : ParamSet → Except String (σ × (σ → Bar → σ × Option OrderDict)))
    (scorer : ParamSet → EngState → ℚ)
    (hmem : ∃ ps ∈ productDict grid, exceptIsOk (mk ps) = false) :
    mkStrategyE p = Except.error "ValueError"
    ∧ exceptIsOk (runGrid cfg bars sym grid mk scorer) = false := by
  constructor
  · simp [mkStrategyE, hstrict, hbad]
  · obtain ⟨ps, hmem', hnotok⟩ := hmem
    have hrow : exceptIsOk (gridRowOf cfg bars sym mk scorer ps) = false := by
      unfold gridRowOf
      cases h : mk ps with
      | error e => rfl
      | ok st => rw [h] at hnotok; simp [exceptIsOk] at hnotok
    have hmap := mapExcept_not_ok hmem' hrow
    unfold runGrid
    cases h2 : mapExcept (gridRowOf cfg bars sym mk scorer)
        (productDict grid) with
    | error e => rfl
    | ok rows => rw [h2] at hmap; simp [exceptIsOk] at hmap

/-- C5 amended witness: the concrete grid with the invalid window 0 —
construction raises and the concrete sweep aborts. -/
theorem C5_amended_witness :
    mkStrategyE pBadC5 = Except.error "ValueError"
    ∧ exceptIsOk (runGrid cfgC3 [] "SYM" gridC5 mkC5 (fun _ _ => 0)) =
        false :=
  C5_amended_construction_raises_and_sweep_aborts pBadC5 rfl (by decide!)
    cfgC3 [] "SYM" gridC5 mkC5 (fun _ _ => 0)
    ⟨[("DONCHIAN_ENTRY_X", 0)], by decide!, by decide!⟩

/-- Helper: executing one order preserves the cash-accounting invariant —
an entry moves capital by exactly one commission (counted by the ghost
`entry_fills`), an exit moves it by exactly the recorded trade pnl, and
every other branch leaves capital, ledger and counter untouched. -/
theorem applyOrder_keeps_capitalInv (cfg : EngineConfig) (fp : ℚ) (ft : Int)
    (sym : String) (o : OrderDict) (es : EngState)
    (h : capitalInv cfg es) :
    capitalInv cfg (applyOrder cfg fp ft sym o es).1 := by
  unfold capitalInv at h ⊢
  rcases o with ⟨act, side, qty, reason⟩
  cases act
  · rcases side with _ | sd
    · simpa [applyOrder] using h
    · cases sd
      · simpa [applyOrder] using h
      · simp only [applyOrder]
        push_cast
        rw [h]; ring
      · by_cases hA : cfg.ALLOW_SHORT
        · simp only [applyOrder, hA, if_true]
          push_cast
          rw [h]; ring
        · simpa [applyOrder, hA] using h
  · rcases hps : es.position.side with _ | _ | _
    · simpa [applyOrder, hps] using h
    · simp only [applyOrder, hps, List.map_append, List.sum_append,
        List.map_cons, List.sum_cons, List.map_nil, List.sum_nil]
      rw [h]; ring
    · simp only [applyOrder, hps, List.map_append, List.sum_append,
        List.map_cons, List.sum_cons, List.map_nil, List.sum_nil]
      rw [h]; ring

/-- Helper: the whole bar loop preserves the cash-accounting invariant
(the equity snapshot touches none of its fields). -/
theorem engineLoop_keeps_capitalInv (cfg : EngineConfig)
    (step : σ → Bar → σ × Option OrderDict) (sym : String) :
    ∀ (bars : List Bar) (st : σ) (es : EngState),
      capitalInv cfg es → capitalInv cfg (engineLoop cfg step sym st es bars) := by
  intro bars
  induction bars with
  | nil => intro st es h; simpa [engineLoop] using h
  | cons bar rest ih =>
    intro st es h
    rw [engineLoop]
    apply ih
    cases hso : (step st bar).2 with
    | none =>
      simp only [hso]
      simpa [capitalInv] using h
    | some o =>
      simp only [hso]
      have h2 := applyOrder_keeps_capitalInv cfg (fillOf cfg bar rest).1
        (fillOf cfg bar rest).2 sym o es h
      split
      · exact h2
      · simpa [capitalInv] using h2

/-- C3 amended: the recorded equity is realized cash only — the engine's
capital (which every equity snapshot copies) always equals the initial
capital minus one fixed commission per entry fill plus the pnl of the
closed trades; no mark-to-market term for an open position ever enters
it. -/
theorem C3_amended_equity_is_realized_cash_only {σ : Type}
    (cfg : EngineConfig) (step : σ → Bar → σ × Option OrderDict) (s0 : σ)
    (sym : String) (bars : List Bar) :
    capitalInv cfg (runEngine cfg step s0 sym bars) := by
  unfold runEngine
  apply engineLoop_keeps_capitalInv
  simp [capitalInv]

/-- Helper: any order `_maybe_exit` returns is an EXIT. -/
theorem maybeExit_only_exit (p : TurtleParams) (s : TurtleState) :
    ∀ o, (maybeExit p s).2 = some o → o.action = OrderAction.EXIT := by
  intro o h
  simp only [maybeExit] at h
  repeat' split at h
  all_goals try simp_all
  all_goals (subst h; rfl)

/-- Helper: `_maybe_exit` never touches the bar buffer. -/
theorem maybeExit_bars (p : TurtleParams) (s : TurtleState) :
    (maybeExit p s).1.bars = s.bars := by
  simp only [maybeExit]
  repeat' split
  all_goals rfl

/-- Helper: with an undefined or nonpositive ATR, `_maybe_pyramid` does
nothing (its early guards also do nothing, so the state is returned
unchanged with no order). -/
theorem maybePyramid_none_of_atrBad (p : TurtleParams) (s : TurtleState)
    (h : atrBad s.bars p.ATR_LEN = true) :
    maybePyramid p s = (s, none) := by
  unfold atrBad at h
  unfold maybePyramid
  split
  · rfl
  · cases hat : atrLast s.bars p.ATR_LEN with
    | none => simp [hat]
    | some a =>
      rw [hat] at h
      simp only [decide_eq_true_eq] at h
      simp [hat, h]

/-- Helper: with an undefined or nonpositive ATR, `_maybe_enter` rejects. -/
theorem maybeEnter_none_of_atrBad (p : TurtleParams) (s : TurtleState)
    (h : atrBad s.bars p.ATR_LEN = true) :
    maybeEnter p s = (s, none) := by
  unfold atrBad at h
  unfold maybeEnter
  cases hat : atrLast s.bars p.ATR_LEN with
  | none => simp [hat]
  | some a =>
    rw [hat] at h
    simp only [decide_eq_true_eq] at h
    simp [hat, h]

/-- Helper: once enough history exists, the exit → pyramid → entry
dispatch produces no ENTER order on a bar whose ATR is undefined or
nonpositive. -/
theorem onBarDispatch_no_enter_of_atrBad (p : TurtleParams)
    (s : TurtleState) (h : atrBad s.bars p.ATR_LEN = true) :
    ((onBarDispatch p s).2).map (fun o => o.action) ≠ some OrderAction.ENTER := by
  unfold onBarDispatch
  rcases hme : maybeExit p s with ⟨s2, o2⟩
  have hb : s2.bars = s.bars := by
    have hx := maybeExit_bars p s
    rw [hme] at hx
    exact hx
  cases o2 with
  | some o =>
    have ha : o.action = OrderAction.EXIT := by
      apply maybeExit_only_exit p s
      rw [hme]
    simp [ha]
  | none =>
    have hpy : maybePyramid p s2 = (s2, none) :=
      maybePyramid_none_of_atrBad p s2 (by rw [hb]; exact h)
    have hen : maybeEnter p s2 = (s2, none) :=
      maybeEnter_none_of_atrBad p s2 (by rw [hb]; exact h)
    dsimp only
    rw [hpy]
    dsimp only
    split
    · rw [hen]; simp
    · simp

/-- Helper: `on_bar` as written never returns an order at all — after
`_append_bar` resets `self._df = None`, the guard's first disjunct
(`self._df is None`) is true on every call. -/
theorem onBar_never_signals (p : TurtleParams) (s : TurtleState)
    (bar : Bar) : (onBar p s bar).2 = none := by
  simp [onBar]

/-- C7: on any bar whose ATR is undefined (`NaN`) or ≤ 0, `on_bar`
produces no ENTER signal — trivially, since the dead `_df` guard makes
`on_bar` produce no signal whatsoever; and also through the guards the
claim cites: the exit → pyramid → entry dispatch after the history check
produces no ENTER either (neither a new entry nor a pyramid add),
regardless of breakout and trend-filter conditions. -/
theorem C7_no_enter_when_atr_undefined_or_nonpositive
    (p : TurtleParams) (s : TurtleState) (bar : Bar)
    (h : atrBad (s.bars ++ [bar]) p.ATR_LEN = true) :
    ((onBar p s bar).2).map (fun o => o.action) ≠ some OrderAction.ENTER
    ∧ ((onBarDispatch p
          { s with bars := s.bars ++ [bar], df_cached := true }).2).map
        (fun o => o.action) ≠ some OrderAction.ENTER := by
  constructor
  · rw [onBar_never_signals]
    simp
  · exact onBarDispatch_no_enter_of_atrBad p _ h

/-- C7 witness: a breakout bar (close 10 above the Donchian high 5) whose
true range — hence ATR(1) — is 0 yields no ENTER. -/
theorem C7_no_enter_witness :
    atrBad (sC7.bars ++ [barC7]) pC7.ATR_LEN = true
    ∧ ((onBar pC7 sC7 barC7).2).map (fun o => o.action) ≠
        some OrderAction.ENTER
    ∧ ((onBarDispatch pC7
          { sC7 with bars := sC7.bars ++ [barC7], df_cached := true }).2).map
        (fun o => o.action) ≠ some OrderAction.ENTER :=
  ⟨by decide!,
   (C7_no_enter_when_atr_undefined_or_nonpositive pC7 sC7 barC7 (by decide!)).1,
   (C7_no_enter_when_atr_undefined_or_nonpositive pC7 sC7 barC7 (by decide!)).2⟩
